import Mathlib

/-!
Shallow embedding of the `useGoogleAuth` React hook from
`src/index.ts` of the Use-Google-Auth repository.

The hook is a thin adaptation layer over the vendor's `gapi` global:
it injects a script tag once, initializes the vendor auth client with a
configuration derived from caller-supplied properties, and forwards
vendor callback invocations to caller-supplied callbacks.

Modelling conventions:
- The document is a list of element ids (`getElementById` is list
  membership; `appendChild` appends).
- Caller-supplied optional callbacks are modelled by a `Bool` recording
  whether the caller supplied them; an invocation is recorded as an
  event in an output trace (`Ev`).  Calling a callback that was not
  supplied, or a method that does not exist on a vendor object, is a
  JavaScript `TypeError`, recorded as `Ev.typeError site`.
- Vendor promises are modelled by outcome data (resolved/rejected)
  passed to the embedded function, which returns the trace of events
  the corresponding JavaScript code would produce.
- The two React state flags (`gapiLoaded`, `authLoaded`) and the
  registration of the `gapi.load` callback form a small transition
  system (`HookState`, `step`).
-/

/-- The caller-supplied properties of the hook (`GoogleLoginProps` in
`src/index.ts`).  Optional properties are `Option`; optional callbacks are
recorded as a `Bool` saying whether the caller supplied them. -/
structure GoogleLoginProps where
  clientId : String
  cookiePolicy : Option String
  fetchBasicProfile : Option Bool
  hostedDomains : Option String
  onLoadFailure : Bool
  onLoginChange : Bool
  onLoginFailure : Bool
  onLoginSuccess : Bool
  onLogoutFailure : Bool
  onLogoutSuccess : Bool
  prompt : Option String
  redirectUri : Option String
  scope : Option (List String)
  src : Option String
  stayLoggedIn : Option Bool
  uxMode : Option String
  deriving DecidableEq

/-- The properties after the destructuring defaults of lines 12-29 of
`src/index.ts` have been applied.  Properties without a default in the
destructuring stay `Option` (they remain `undefined` when omitted). -/
structure ResolvedProps where
  clientId : String
  cookiePolicy : String
  fetchBasicProfile : Option Bool
  hostedDomains : Option String
  onLoadFailure : Bool
  onLoginChange : Bool
  onLoginFailure : Bool
  onLoginSuccess : Bool
  onLogoutFailure : Bool
  onLogoutSuccess : Bool
  prompt : String
  redirectUri : Option String
  scope : List String
  src : String
  stayLoggedIn : Bool
  uxMode : String
  deriving DecidableEq

/-- Application of the destructuring defaults of `useGoogleAuth`
(`src/index.ts` lines 12-29): `cookiePolicy = 'single_host_origin'`,
`prompt = 'select_account'`, `scope = ['profile']`,
`src = 'https://apis.google.com/js/platform.js'`, `stayLoggedIn = false`,
`uxMode = 'popup'`; every other property is passed through unchanged. -/
def resolveProps (p : GoogleLoginProps) : ResolvedProps where
  clientId := p.clientId
  cookiePolicy := p.cookiePolicy.getD "single_host_origin"
  fetchBasicProfile := p.fetchBasicProfile
  hostedDomains := p.hostedDomains
  onLoadFailure := p.onLoadFailure
  onLoginChange := p.onLoginChange
  onLoginFailure := p.onLoginFailure
  onLoginSuccess := p.onLoginSuccess
  onLogoutFailure := p.onLogoutFailure
  onLogoutSuccess := p.onLogoutSuccess
  prompt := p.prompt.getD "select_account"
  redirectUri := p.redirectUri
  scope := p.scope.getD ["profile"]
  src := p.src.getD "https://apis.google.com/js/platform.js"
  stayLoggedIn := p.stayLoggedIn.getD false
  uxMode := p.uxMode.getD "popup"

/-- The configuration object built at lines 63-75 of `src/index.ts` and
passed to `gapi.auth2.init`.  `access_type` is `none` when the field is
absent (it is only added when `stayLoggedIn` is true). -/
structure GoogleClientConfig where
  access_type : Option String
  client_id : String
  cookie_policy : String
  fetch_basic_profile : Option Bool
  hosted_domains : Option String
  redirect_uri : Option String
  scope : String
  ux_mode : String
  deriving DecidableEq

/-- Construction of the `clientConfig` object (`src/index.ts` lines 63-75):
`redirect_uri` is `redirectUri` when `uxMode === 'redirect'` and the empty
string otherwise; `access_type` is `'offline'` exactly when `stayLoggedIn`. -/
def mkClientConfig (p : ResolvedProps) : GoogleClientConfig where
  access_type := if p.stayLoggedIn then some "offline" else none
  client_id := p.clientId
  cookie_policy := p.cookiePolicy
  fetch_basic_profile := p.fetchBasicProfile
  hosted_domains := p.hostedDomains
  redirect_uri := if p.uxMode = "redirect" then p.redirectUri else some ""
  scope := String.intercalate " " p.scope
  ux_mode := p.uxMode

/-- The options object built at lines 154-159 of `src/index.ts` and
passed to the vendor's `signIn`. -/
structure GoogleSignInOptions where
  prompt : String
  redirect_uri : Option String
  scope : String
  ux_mode : String
  deriving DecidableEq

/-- Construction of `signInOptions` (`src/index.ts` lines 154-159). -/
def mkSignInOptions (p : ResolvedProps) : GoogleSignInOptions where
  prompt := p.prompt
  redirect_uri := p.redirectUri
  scope := String.intercalate " " p.scope
  ux_mode := p.uxMode

/-- The vendor basic profile, as read through its getters
(`getId`, `getImageUrl`, `getEmail`, `getName`, `getGivenName`,
`getFamilyName`) at lines 203-208 of `src/index.ts`. -/
structure BasicProfile where
  getId : String
  getImageUrl : String
  getEmail : String
  getName : String
  getGivenName : String
  getFamilyName : String
  deriving DecidableEq

/-- The vendor auth response returned by `getAuthResponse(true)`.
`expires_in` stands for the remaining vendor fields that the hook passes
through untouched inside `tokenObject`. -/
structure AuthResponse where
  access_token : String
  id_token : String
  expires_in : Nat
  deriving DecidableEq

/-- A vendor sign-in response / current user: the object on which the
hook calls `getBasicProfile()` and `getAuthResponse(true)`
(`src/index.ts` lines 196-197). -/
structure SignInResponse where
  basicProfile : BasicProfile
  authResponse : AuthResponse
  deriving DecidableEq

/-- The renamed profile object built at lines 202-209 of `src/index.ts`. -/
structure GoogleProfile where
  googleId : String
  imageUrl : String
  email : String
  name : String
  givenName : String
  familyName : String
  deriving DecidableEq

/-- The object passed to `onLoginSuccess` (`src/index.ts` lines 200-212). -/
structure GoogleSuccessObject where
  accessToken : String
  profile : GoogleProfile
  tokenId : String
  tokenObject : AuthResponse
  deriving DecidableEq

/-- Construction of the `onLoginSuccess` argument
(`src/index.ts` lines 200-212). -/
def mkSuccessObject (r : SignInResponse) : GoogleSuccessObject where
  accessToken := r.authResponse.access_token
  profile :=
    { googleId := r.basicProfile.getId
      imageUrl := r.basicProfile.getImageUrl
      email := r.basicProfile.getEmail
      name := r.basicProfile.getName
      givenName := r.basicProfile.getGivenName
      familyName := r.basicProfile.getFamilyName }
  tokenId := r.authResponse.id_token
  tokenObject := r.authResponse

/-- Observable events produced by the hook's code: vendor API calls,
caller-callback invocations, state-setter calls, console output, and
JavaScript `TypeError`s (a call to a missing function, tagged with the
site of the call). -/
inductive Ev where
  | setGapiLoaded
  | setAuthLoaded
  | vendorInit (cfg : GoogleClientConfig)
  | listenRegistered
  | vendorSignIn (opts : GoogleSignInOptions)
  | vendorSignOut
  | vendorDisconnect
  | loginSuccess (o : GoogleSuccessObject)
  | loginFailure (e : String)
  | loadFailure (e : String)
  | logoutSuccess
  | logoutFailure (e : String)
  | consoleError (e : String)
  | typeError (site : String)
  deriving DecidableEq

/-- `handleLoginSuccess` (`src/index.ts` lines 195-214): builds the
success object and invokes `onLoginSuccess` with it exactly when the
caller supplied `onLoginSuccess`. -/
def handleLoginSuccess (p : ResolvedProps) (r : SignInResponse) : List Ev :=
  if p.onLoginSuccess then [Ev.loginSuccess (mkSuccessObject r)] else []

/-- `handleLoginFailure` (`src/index.ts` lines 216-220): invokes
`onLoginFailure` with the vendor error exactly when the caller supplied
`onLoginFailure`. -/
def handleLoginFailure (p : ResolvedProps) (e : String) : List Ev :=
  if p.onLoginFailure then [Ev.loginFailure e] else []

/-- Outcome of the `gapi.auth2.init` promise in the fresh-initialization
branch: resolved with the auth client (its `isSignedIn.get()` value and
`currentUser.get()`), or rejected with an error. -/
inductive InitOutcome where
  | resolved (signedIn : Bool) (currentUser : SignInResponse)
  | rejected (e : String)
  deriving DecidableEq

/-- Outcome of the readiness (then-able) promise of a pre-existing
vendor auth instance. -/
inductive ReadyOutcome where
  | resolved
  | rejected (e : String)
  deriving DecidableEq

/-- What `gapi.auth2.getAuthInstance()` returns inside the `gapi.load`
callback: no instance yet (with the outcome the subsequent `init` call
would have), or a pre-existing instance (with its readiness outcome and
current user). -/
inductive AuthInstanceState where
  | absent (outcome : InitOutcome)
  | present (ready : ReadyOutcome) (currentUser : SignInResponse)
  deriving DecidableEq

/-- The `gapi.load('auth2', ...)` success callback (`src/index.ts`
lines 78-137).  It sets `authLoaded`; when no auth instance exists it
calls `gapi.auth2.init(clientConfig)` and, on resolution, registers the
`onLoginChange` listener via `isSignedIn.listen` (when supplied) and
forwards an already-signed-in user to `handleLoginSuccess`; on rejection
it logs and invokes `onLoadFailure` when supplied.  When an instance
already exists it waits for readiness, then forwards the current user to
`handleLoginSuccess` when `stayLoggedIn`, and then calls
`googleAuth.isSignedIn.listener(onLoginChange)` — a method that does not
exist on the vendor's `isSignedIn` object (the vendor API and the other
branch use `listen`), so that call raises a `TypeError`; on readiness
rejection it logs and calls `handleLoginFailure`. -/
def authCallback (p : ResolvedProps) (st : AuthInstanceState) : List Ev :=
  Ev.setAuthLoaded ::
    match st with
    | .absent outcome =>
        Ev.vendorInit (mkClientConfig p) ::
          match outcome with
          | .resolved signedIn user =>
              (if p.onLoginChange then [Ev.listenRegistered] else []) ++
                (if signedIn then handleLoginSuccess p user else [])
          | .rejected e =>
              Ev.consoleError e ::
                (if p.onLoadFailure then [Ev.loadFailure e] else [])
    | .present ready user =>
        match ready with
        | .resolved =>
            (if p.stayLoggedIn then handleLoginSuccess p user else []) ++
              (if p.onLoginChange then [Ev.typeError "isSignedIn.listener"] else [])
        | .rejected e =>
            Ev.consoleError e :: handleLoginFailure p e

/-- Outcome of the vendor `googleAuth.signIn(signInOptions)` promise. -/
inductive SignInOutcome where
  | resolved (r : SignInResponse)
  | rejected (e : String)
  deriving DecidableEq

/-- The `signIn` function returned by the hook (`src/index.ts`
lines 149-170).  `inst` is `none` when `getAuthInstance()` returns no
instance, and `some outcome` when an instance exists and its `signIn`
promise settles with `outcome`. -/
def signIn (p : ResolvedProps) (authLoaded : Bool) (inst : Option SignInOutcome) :
    List Ev :=
  if authLoaded then
    match inst with
    | none => []
    | some outcome =>
        Ev.vendorSignIn (mkSignInOptions p) ::
          match outcome with
          | .resolved r => handleLoginSuccess p r
          | .rejected e => handleLoginFailure p e
  else []

/-- Scenario for a `signOut` call on an existing instance: the readiness
promise resolves (and the vendor `signOut()` promise resolves or not),
or the readiness promise rejects with an error. -/
inductive SignOutScenario where
  | ready (vendorResolves : Bool)
  | notReady (e : String)
  deriving DecidableEq

/-- The `signOut` function returned by the hook (`src/index.ts`
lines 172-193).  On readiness it calls the vendor `signOut()`, and on
its resolution calls `disconnect()` and then `onLogoutSuccess` when
supplied; on readiness rejection it calls `onLogoutFailure(error)`
without a supplied-guard, which is a `TypeError` when the caller did not
supply `onLogoutFailure`. -/
def signOut (p : ResolvedProps) (authLoaded : Bool) (inst : Option SignOutScenario) :
    List Ev :=
  if authLoaded then
    match inst with
    | none => []
    | some s =>
        match s with
        | .ready vendorResolves =>
            Ev.vendorSignOut ::
              (if vendorResolves then
                Ev.vendorDisconnect ::
                  (if p.onLogoutSuccess then [Ev.logoutSuccess] else [])
              else [])
        | .notReady e =>
            if p.onLogoutFailure then [Ev.logoutFailure e]
            else [Ev.typeError "onLogoutFailure"]
  else []

/-- The value returned by the hook (`src/index.ts` lines 239-242): an
object with exactly the two fields `signIn` and `signOut`. -/
structure HookReturn where
  signIn : Bool → Option SignInOutcome → List Ev
  signOut : Bool → Option SignOutScenario → List Ev

/-- `useGoogleAuth`: applies the destructuring defaults and returns the
object holding the two imperative functions. -/
def useGoogleAuth (p : GoogleLoginProps) : HookReturn :=
  let r := resolveProps p
  { signIn := signIn r, signOut := signOut r }

/-- The mount effect (`src/index.ts` lines 37-55) acting on the document,
modelled as the list of element ids: when no element with id
`google-script` exists, a script element with that id is appended. -/
def scriptEffect (doc : List String) : List String :=
  if "google-script" ∈ doc then doc else doc ++ ["google-script"]

/-- State of the hook's loading flags together with whether the
`gapi.load('auth2', ...)` callback has been registered. -/
structure HookState where
  gapiLoaded : Bool
  authCbRegistered : Bool
  authLoaded : Bool
  deriving DecidableEq

/-- Initial hook state: both `useState(false)` flags false and no
`gapi.load` callback registered. -/
def initState : HookState where
  gapiLoaded := false
  authCbRegistered := false
  authLoaded := false

/-- Events driving the loading-state transition system: the script's
`load` event (`setGapiLoaded(true)`, line 45), a run of the
`gapiLoaded`-gated effect (lines 61-143, which registers the `gapi.load`
callback only when `gapiLoaded` is true), and the firing of the
`gapi.load` callback (`setAuthLoaded(true)`, line 82, possible only once
the callback is registered). -/
inductive HookEvent where
  | scriptLoad
  | gapiEffect
  | auth2Loaded
  deriving DecidableEq

/-- One step of the loading-state transition system. -/
def step (s : HookState) : HookEvent → HookState
  | .scriptLoad => { s with gapiLoaded := true }
  | .gapiEffect =>
      if s.gapiLoaded then { s with authCbRegistered := true } else s
  | .auth2Loaded =>
      if s.authCbRegistered then { s with authLoaded := true } else s

/-- Run of the transition system from the initial state. -/
def run (es : List HookEvent) : HookState :=
  es.foldl step initState

/-- A props object supplying only the required `clientId`, used to
instantiate the theorems below at concrete inputs. -/
def baseProps : GoogleLoginProps where
  clientId := "cid"
  cookiePolicy := none
  fetchBasicProfile := none
  hostedDomains := none
  onLoadFailure := false
  onLoginChange := false
  onLoginFailure := false
  onLoginSuccess := false
  onLogoutFailure := false
  onLogoutSuccess := false
  prompt := none
  redirectUri := none
  scope := none
  src := none
  stayLoggedIn := none
  uxMode := none

/-- A concrete vendor basic profile for concrete instantiations. -/
def sampleProfile : BasicProfile where
  getId := "id-1"
  getImageUrl := "img-url"
  getEmail := "a@example.com"
  getName := "Ada Lovelace"
  getGivenName := "Ada"
  getFamilyName := "Lovelace"

/-- A concrete vendor auth response for concrete instantiations. -/
def sampleAuthResponse : AuthResponse where
  access_token := "tok-123"
  id_token := "idtok-456"
  expires_in := 3600

/-- A concrete vendor sign-in response for concrete instantiations. -/
def sampleUser : SignInResponse where
  basicProfile := sampleProfile
  authResponse := sampleAuthResponse

theorem scriptEffect_count_le_one (d : List String)
    (h : d.count "google-script" ≤ 1) :
    (scriptEffect d).count "google-script" ≤ 1 := by
  unfold scriptEffect
  by_cases hm : "google-script" ∈ d
  · simpa [hm] using h
  · have h0 : d.count "google-script" = 0 := List.count_eq_zero.2 hm
    simp [hm, List.count_append, h0]

theorem scriptEffect_iterate_le_one :
    ∀ (n : ℕ) (d : List String), d.count "google-script" ≤ 1 →
      (scriptEffect^[n] d).count "google-script" ≤ 1 := by
  intro n
  induction n with
  | zero => intro d h; simpa using h
  | succ n ih =>
      intro d h
      rw [Function.iterate_succ_apply]
      exact ih _ (scriptEffect_count_le_one d h)

/-- C1: the mount effect appends the script element only when no element
with id `google-script` exists yet, so starting from a document without
that id, any number of effect runs leaves at most one `google-script`
element in the document. -/
theorem c1_single_injection (doc : List String)
    (h : "google-script" ∉ doc) :
    (∀ n : ℕ, (scriptEffect^[n] doc).count "google-script" ≤ 1) ∧
    (∀ d : List String,
      ("google-script" ∈ d → scriptEffect d = d) ∧
      ("google-script" ∉ d → scriptEffect d = d ++ ["google-script"])) := by
  constructor
  · intro n
    exact scriptEffect_iterate_le_one n doc
      (by simp [List.count_eq_zero.2 h])
  · intro d
    constructor
    · intro hd; simp [scriptEffect, hd]
    · intro hd; simp [scriptEffect, hd]

/-- Witness for C1 at the empty document and three effect runs. -/
theorem c1_witness :
    "google-script" ∉ ([] : List String) ∧
    (scriptEffect^[3] ([] : List String)).count "google-script" ≤ 1 :=
  ⟨by decide, (c1_single_injection [] (by decide)).1 3⟩

/-- C3: for every successful sign-in response, when `onLoginSuccess` was
supplied it is invoked exactly once with the object whose `accessToken`
is the auth response's `access_token`, whose `tokenId` is its `id_token`,
whose `tokenObject` is the auth response itself, and whose `profile`
renames the basic-profile getters to `googleId`, `imageUrl`, `email`,
`name`, `givenName`, `familyName`; when it was not supplied, no callback
is invoked. -/
theorem c3_login_success (p : ResolvedProps) (r : SignInResponse) :
    (p.onLoginSuccess = true →
      handleLoginSuccess p r = [Ev.loginSuccess (mkSuccessObject r)] ∧
      (mkSuccessObject r).accessToken = r.authResponse.access_token ∧
      (mkSuccessObject r).tokenId = r.authResponse.id_token ∧
      (mkSuccessObject r).tokenObject = r.authResponse ∧
      (mkSuccessObject r).profile.googleId = r.basicProfile.getId ∧
      (mkSuccessObject r).profile.imageUrl = r.basicProfile.getImageUrl ∧
      (mkSuccessObject r).profile.email = r.basicProfile.getEmail ∧
      (mkSuccessObject r).profile.name = r.basicProfile.getName ∧
      (mkSuccessObject r).profile.givenName = r.basicProfile.getGivenName ∧
      (mkSuccessObject r).profile.familyName = r.basicProfile.getFamilyName) ∧
    (p.onLoginSuccess = false → handleLoginSuccess p r = []) := by
  constructor
  · intro h
    refine ⟨by simp [handleLoginSuccess, h], ?_⟩
    simp [mkSuccessObject]
  · intro h
    simp [handleLoginSuccess, h]

/-- Witness for C3 at a concrete props object and response. -/
theorem c3_witness :
    (resolveProps { baseProps with onLoginSuccess := true }).onLoginSuccess = true ∧
    handleLoginSuccess (resolveProps { baseProps with onLoginSuccess := true })
        sampleUser = [Ev.loginSuccess (mkSuccessObject sampleUser)] :=
  ⟨by decide,
    ((c3_login_success (resolveProps { baseProps with onLoginSuccess := true })
        sampleUser).1 (by decide)).1⟩

/-- C8: the hook returns an object with exactly the two fields `signIn`
and `signOut`, each the corresponding imperative function applied to the
resolved props; nothing else is exposed (the `HookReturn` structure has
no other field). -/
theorem c8_return_shape (p : GoogleLoginProps) :
    useGoogleAuth p =
      { signIn := signIn (resolveProps p), signOut := signOut (resolveProps p) } :=
  rfl

/-- C9: a `signIn` or `signOut` call made while `authLoaded` is false, or
while `getAuthInstance()` returns no instance, produces no vendor
operation and no caller-callback invocation. -/
theorem c9_early_return (p : ResolvedProps) :
    (∀ inst : Option SignInOutcome, signIn p false inst = []) ∧
    (∀ inst : Option SignOutScenario, signOut p false inst = []) ∧
    (∀ b : Bool, signIn p b none = []) ∧
    (∀ b : Bool, signOut p b none = []) := by
  refine ⟨fun inst => rfl, fun inst => rfl, fun b => ?_, fun b => ?_⟩ <;>
    cases b <;> rfl

/-- Invariant of the loading-state transition system: `authLoaded`
implies the `gapi.load` callback was registered, which implies
`gapiLoaded`. -/
def LoadingInv (s : HookState) : Prop :=
  (s.authLoaded = true → s.authCbRegistered = true) ∧
  (s.authCbRegistered = true → s.gapiLoaded = true)

theorem step_loadingInv {s : HookState} (h : LoadingInv s) (e : HookEvent) :
    LoadingInv (step s e) := by
  obtain ⟨h1, h2⟩ := h
  cases e with
  | scriptLoad =>
      exact ⟨fun ha => h1 ha, fun _ => rfl⟩
  | gapiEffect =>
      by_cases hg : s.gapiLoaded
      · simp only [step, hg, if_true]
        exact ⟨fun _ => rfl, fun _ => rfl⟩
      · simp only [step, hg, if_false]
        exact ⟨h1, h2⟩
  | auth2Loaded =>
      by_cases hc : s.authCbRegistered
      · simp only [step, hc, if_true]
        exact ⟨fun _ => rfl, fun _ => h2 hc⟩
      · simp only [step, hc, if_false]
        exact ⟨h1, h2⟩

theorem foldl_loadingInv :
    ∀ (es : List HookEvent) (s : HookState), LoadingInv s →
      LoadingInv (es.foldl step s) := by
  intro es
  induction es with
  | nil => intro s h; exact h
  | cons e es ih => intro s h; exact ih _ (step_loadingInv h e)

theorem run_loadingInv (es : List HookEvent) : LoadingInv (run es) :=
  foldl_loadingInv es initState ⟨by simp [initState], by simp [initState]⟩

theorem step_mono (s : HookState) (e : HookEvent) :
    (s.gapiLoaded = true → (step s e).gapiLoaded = true) ∧
    (s.authCbRegistered = true → (step s e).authCbRegistered = true) ∧
    (s.authLoaded = true → (step s e).authLoaded = true) := by
  cases e with
  | scriptLoad => exact ⟨fun _ => rfl, fun h => h, fun h => h⟩
  | gapiEffect => by_cases hg : s.gapiLoaded <;> simp [step, hg]
  | auth2Loaded => by_cases hc : s.authCbRegistered <;> simp [step, hc]

theorem step_gapi_origin (s : HookState) (e : HookEvent)
    (h : (step s e).gapiLoaded = true) :
    s.gapiLoaded = true ∨ e = HookEvent.scriptLoad := by
  cases e with
  | scriptLoad => exact Or.inr rfl
  | gapiEffect =>
      left
      by_cases hg : s.gapiLoaded
      · exact hg
      · simp [step, hg] at h
  | auth2Loaded =>
      left
      by_cases hc : s.authCbRegistered
      · simp [step, hc] at h
        exact h
      · simp [step, hc] at h
        exact h

theorem step_cb_origin (s : HookState) (e : HookEvent)
    (h : (step s e).authCbRegistered = true) :
    s.authCbRegistered = true ∨
      (e = HookEvent.gapiEffect ∧ s.gapiLoaded = true) := by
  cases e with
  | scriptLoad => exact Or.inl h
  | gapiEffect =>
      by_cases hg : s.gapiLoaded
      · exact Or.inr ⟨rfl, hg⟩
      · left; simpa [step, hg] using h
  | auth2Loaded =>
      left
      by_cases hc : s.authCbRegistered
      · exact hc
      · simp [step, hc] at h

theorem step_auth_origin (s : HookState) (e : HookEvent)
    (h : (step s e).authLoaded = true) :
    s.authLoaded = true ∨
      (e = HookEvent.auth2Loaded ∧ s.authCbRegistered = true) := by
  cases e with
  | scriptLoad => exact Or.inl h
  | gapiEffect =>
      left
      by_cases hg : s.gapiLoaded
      · simp [step, hg] at h
        exact h
      · simpa [step, hg] using h
  | auth2Loaded =>
      by_cases hc : s.authCbRegistered
      · exact Or.inr ⟨rfl, hc⟩
      · left; simpa [step, hc] using h

theorem run_append_step (es : List HookEvent) (e : HookEvent) :
    run (es ++ [e]) = step (run es) e := by
  simp [run, List.foldl_append]

/-- C4: the loading state advances only along the chain
`script not loaded → loaded → auth client ready`: in every reachable
state `authLoaded` implies `gapiLoaded` (via the registered callback);
the flags are monotone (no transition back to false); `gapiLoaded`
becomes true only on the script's load event; the `gapi.load` callback
is registered only while `gapiLoaded` is true; and `authLoaded` becomes
true only when the registered `gapi.load` callback fires. -/
theorem c4_loading_chain (es : List HookEvent) (e : HookEvent) :
    ((run es).authLoaded = true → (run es).gapiLoaded = true) ∧
    ((run es).authCbRegistered = true → (run es).gapiLoaded = true) ∧
    ((run es).gapiLoaded = true → (run (es ++ [e])).gapiLoaded = true) ∧
    ((run es).authCbRegistered = true →
      (run (es ++ [e])).authCbRegistered = true) ∧
    ((run es).authLoaded = true → (run (es ++ [e])).authLoaded = true) ∧
    ((run (es ++ [e])).gapiLoaded = true →
      (run es).gapiLoaded = true ∨ e = HookEvent.scriptLoad) ∧
    ((run (es ++ [e])).authCbRegistered = true →
      (run es).authCbRegistered = true ∨
        (e = HookEvent.gapiEffect ∧ (run es).gapiLoaded = true)) ∧
    ((run (es ++ [e])).authLoaded = true →
      (run es).authLoaded = true ∨
        (e = HookEvent.auth2Loaded ∧ (run es).authCbRegistered = true)) := by
  obtain ⟨h1, h2⟩ := run_loadingInv es
  obtain ⟨m1, m2, m3⟩ := step_mono (run es) e
  rw [run_append_step]
  exact ⟨fun h => h2 (h1 h), h2, m1, m2, m3,
    step_gapi_origin (run es) e, step_cb_origin (run es) e,
    step_auth_origin (run es) e⟩

/-- Witness for C4 at the canonical three-event trace. -/
theorem c4_witness :
    (run [HookEvent.scriptLoad, HookEvent.gapiEffect,
        HookEvent.auth2Loaded]).authLoaded = true ∧
    (run [HookEvent.scriptLoad, HookEvent.gapiEffect,
        HookEvent.auth2Loaded]).gapiLoaded = true :=
  ⟨by decide,
    (c4_loading_chain [HookEvent.scriptLoad, HookEvent.gapiEffect,
        HookEvent.auth2Loaded] HookEvent.scriptLoad).1 (by decide)⟩

/-- C2 counterexample: with the default `uxMode` of `'popup'` and a
supplied `redirectUri`, the configuration's `redirect_uri` is the empty
string, not `redirectUri` — the code sets
`redirect_uri: uxMode === 'redirect' ? redirectUri : ''`
(`src/index.ts` line 68), so the claimed unconditional
`redirect_uri = redirectUri` fails. -/
theorem c2_counterexample :
    (mkClientConfig (resolveProps
        { baseProps with redirectUri := some "https://example.com/cb" })).redirect_uri =
      some "" ∧
    (mkClientConfig (resolveProps
        { baseProps with redirectUri := some "https://example.com/cb" })).redirect_uri ≠
      (resolveProps
        { baseProps with redirectUri := some "https://example.com/cb" }).redirectUri := by
  constructor
  · decide
  · decide

/-- C2 (amended): inside the `gapi.load` callback, when no auth instance
exists the hook calls `gapi.auth2.init` with the configuration whose
`client_id` is `clientId`, `cookie_policy` is `cookiePolicy`,
`fetch_basic_profile` is `fetchBasicProfile`, `hosted_domains` is
`hostedDomains`, `scope` is the scope array joined by single spaces,
`ux_mode` is `uxMode`, whose `redirect_uri` is `redirectUri` when
`uxMode` is `'redirect'` and the empty string otherwise, and whose
`access_type` is `'offline'` exactly when `stayLoggedIn` is true. -/
theorem c2_init_config (p : ResolvedProps) (outcome : InitOutcome) :
    (∃ rest, authCallback p (.absent outcome) =
      Ev.setAuthLoaded :: Ev.vendorInit (mkClientConfig p) :: rest) ∧
    (mkClientConfig p).client_id = p.clientId ∧
    (mkClientConfig p).cookie_policy = p.cookiePolicy ∧
    (mkClientConfig p).fetch_basic_profile = p.fetchBasicProfile ∧
    (mkClientConfig p).hosted_domains = p.hostedDomains ∧
    (mkClientConfig p).scope = String.intercalate " " p.scope ∧
    (mkClientConfig p).ux_mode = p.uxMode ∧
    (mkClientConfig p).redirect_uri =
      (if p.uxMode = "redirect" then p.redirectUri else some "") ∧
    ((mkClientConfig p).access_type = some "offline" ↔ p.stayLoggedIn = true) := by
  refine ⟨⟨_, rfl⟩, rfl, rfl, rfl, rfl, rfl, rfl, rfl, ?_⟩
  by_cases hs : p.stayLoggedIn <;> simp [mkClientConfig, hs]

/-- Witness for C2 (amended) at a concrete props object. -/
theorem c2_witness :
    (mkClientConfig (resolveProps baseProps)).access_type = some "offline" ↔
      (resolveProps baseProps).stayLoggedIn = true :=
  (c2_init_config (resolveProps baseProps)
    (InitOutcome.rejected "e")).2.2.2.2.2.2.2.2

/-- C5 (code bug): in the pre-existing-instance branch the code calls
`googleAuth.isSignedIn.listener(onLoginChange)` (`src/index.ts`
line 127) — `listener` is not a method of the vendor's `isSignedIn`
object (the fresh-initialization branch at line 95 and the vendor API
use `listen`), so with `onLoginChange` supplied the branch raises a
`TypeError` and registers nothing, while the fresh-initialization
branch does register the listener. -/
theorem c5_listener_bug :
    authCallback (resolveProps { baseProps with onLoginChange := true })
        (.present .resolved sampleUser) =
      [Ev.setAuthLoaded, Ev.typeError "isSignedIn.listener"] ∧
    Ev.listenRegistered ∉
      authCallback (resolveProps { baseProps with onLoginChange := true })
        (.present .resolved sampleUser) ∧
    Ev.listenRegistered ∈
      authCallback (resolveProps { baseProps with onLoginChange := true })
        (.absent (.resolved false sampleUser)) ∧
    Ev.listenRegistered ∉
      authCallback (resolveProps baseProps)
        (.absent (.resolved false sampleUser)) := by
  refine ⟨by decide, by decide, by decide, by decide⟩

/-- C6: when a sign-in attempt's vendor promise rejects, `onLoginFailure`
is invoked with the vendor error exactly when the caller supplied it,
`onLoginSuccess` is never invoked for that attempt, and no single
attempt ever invokes both a success and a failure callback. -/
theorem c6_signin_failure (p : ResolvedProps) (e : String) :
    (p.onLoginFailure = true →
      signIn p true (some (.rejected e)) =
        [Ev.vendorSignIn (mkSignInOptions p), Ev.loginFailure e]) ∧
    (p.onLoginFailure = false →
      signIn p true (some (.rejected e)) = [Ev.vendorSignIn (mkSignInOptions p)]) ∧
    (∀ o : GoogleSuccessObject,
      Ev.loginSuccess o ∉ signIn p true (some (.rejected e))) ∧
    (∀ (outcome : SignInOutcome) (o : GoogleSuccessObject) (f : String),
      ¬ (Ev.loginSuccess o ∈ signIn p true (some outcome) ∧
         Ev.loginFailure f ∈ signIn p true (some outcome))) := by
  refine ⟨?_, ?_, ?_, ?_⟩
  · intro h
    simp [signIn, handleLoginFailure, h]
  · intro h
    simp [signIn, handleLoginFailure, h]
  · intro o
    by_cases h : p.onLoginFailure <;>
      simp [signIn, handleLoginFailure, h]
  · intro outcome o f
    rintro ⟨hs, hf⟩
    cases outcome with
    | resolved r =>
        by_cases h : p.onLoginSuccess <;>
          simp [signIn, handleLoginSuccess, h] at hf
    | rejected e2 =>
        by_cases h : p.onLoginFailure <;>
          simp [signIn, handleLoginFailure, h] at hs

/-- Witness for C6 at a concrete props object and error. -/
theorem c6_witness :
    (resolveProps { baseProps with onLoginFailure := true }).onLoginFailure = true ∧
    signIn (resolveProps { baseProps with onLoginFailure := true }) true
        (some (.rejected "err")) =
      [Ev.vendorSignIn (mkSignInOptions
          (resolveProps { baseProps with onLoginFailure := true })),
        Ev.loginFailure "err"] :=
  ⟨by decide,
    (c6_signin_failure (resolveProps { baseProps with onLoginFailure := true })
        "err").1 (by decide)⟩

/-- C7 counterexample: when the readiness promise of the auth instance
rejects and the caller did not supply `onLogoutFailure`, the unguarded
call `onLogoutFailure(error)` (`src/index.ts` line 189) is a `TypeError`
— the callback is not invoked, contrary to the claim's unconditional
"onLogoutFailure is invoked with the vendor error". -/
theorem c7_counterexample :
    signOut (resolveProps baseProps) true (some (.notReady "boom")) =
      [Ev.typeError "onLogoutFailure"] ∧
    Ev.logoutFailure "boom" ∉
      signOut (resolveProps baseProps) true (some (.notReady "boom")) := by
  refine ⟨by decide, by decide⟩

/-- C7 (amended): with the auth client ready, on successful vendor
sign-out `disconnect` is called and then `onLogoutSuccess` is invoked
exactly when the caller supplied it; when the readiness promise rejects,
`onLogoutFailure` is invoked with the vendor error when the caller
supplied it, and the unguarded call raises a `TypeError` when not. -/
theorem c7_signout (p : ResolvedProps) (e : String) :
    (p.onLogoutSuccess = true →
      signOut p true (some (.ready true)) =
        [Ev.vendorSignOut, Ev.vendorDisconnect, Ev.logoutSuccess]) ∧
    (p.onLogoutSuccess = false →
      signOut p true (some (.ready true)) =
        [Ev.vendorSignOut, Ev.vendorDisconnect]) ∧
    (p.onLogoutFailure = true →
      signOut p true (some (.notReady e)) = [Ev.logoutFailure e]) ∧
    (p.onLogoutFailure = false →
      signOut p true (some (.notReady e)) = [Ev.typeError "onLogoutFailure"]) := by
  refine ⟨?_, ?_, ?_, ?_⟩ <;> intro h <;> simp [signOut, h]

/-- Witness for C7 (amended) at a concrete props object. -/
theorem c7_witness :
    (resolveProps { baseProps with onLogoutSuccess := true }).onLogoutSuccess = true ∧
    signOut (resolveProps { baseProps with onLogoutSuccess := true }) true
        (some (.ready true)) =
      [Ev.vendorSignOut, Ev.vendorDisconnect, Ev.logoutSuccess] :=
  ⟨by decide,
    (c7_signout (resolveProps { baseProps with onLogoutSuccess := true })
        "e").1 (by decide)⟩

/-- C10 counterexample: `clientId` is not the only property without a
default — `hostedDomains`, `fetchBasicProfile` and `redirectUri`, when
omitted, receive no default and remain unset (while e.g. `cookiePolicy`
does receive one). -/
theorem c10_counterexample :
    (resolveProps baseProps).hostedDomains = none ∧
    (resolveProps baseProps).fetchBasicProfile = none ∧
    (resolveProps baseProps).redirectUri = none ∧
    (resolveProps baseProps).cookiePolicy = "single_host_origin" := by
  refine ⟨rfl, rfl, rfl, rfl⟩

/-- C10 (amended): when the caller omits them, `cookiePolicy` defaults to
`'single_host_origin'`, `prompt` to `'select_account'`, `scope` to
`['profile']` (so the joined scope string is `'profile'`), `src` to
`'https://apis.google.com/js/platform.js'`, `stayLoggedIn` to `false`
and `uxMode` to `'popup'`; `clientId` is the only required property, and
`hostedDomains`, `fetchBasicProfile` and `redirectUri` have no default
(they pass through unchanged). -/
theorem c10_defaults (p : GoogleLoginProps)
    (hc : p.cookiePolicy = none) (hp : p.prompt = none)
    (hs : p.scope = none) (hsrc : p.src = none)
    (hst : p.stayLoggedIn = none) (hux : p.uxMode = none) :
    (resolveProps p).cookiePolicy = "single_host_origin" ∧
    (resolveProps p).prompt = "select_account" ∧
    (resolveProps p).scope = ["profile"] ∧
    String.intercalate " " (resolveProps p).scope = "profile" ∧
    (resolveProps p).src = "https://apis.google.com/js/platform.js" ∧
    (resolveProps p).stayLoggedIn = false ∧
    (resolveProps p).uxMode = "popup" ∧
    (resolveProps p).clientId = p.clientId ∧
    (resolveProps p).hostedDomains = p.hostedDomains ∧
    (resolveProps p).fetchBasicProfile = p.fetchBasicProfile ∧
    (resolveProps p).redirectUri = p.redirectUri := by
  simp [resolveProps, hc, hp, hs, hsrc, hst, hux]
  decide

/-- Witness for C10 (amended) at the minimal props object. -/
theorem c10_witness :
    baseProps.cookiePolicy = none ∧
    (resolveProps baseProps).cookiePolicy = "single_host_origin" :=
  ⟨rfl, (c10_defaults baseProps rfl rfl rfl rfl rfl rfl).1⟩
